import Mathlib

/-!
Shallow embedding of the oauth-tooling module (authmosphere) and proofs about it.

The module under verification performs outbound HTTP calls; the embedding models
the transport as an explicit environment function from the issued request to the
fetch outcome, and models the promise machinery by explicit settlement values.
External collaborators that live outside the embedded file (the utils and
constants modules, the form-urlencoded library, the http-status package) are
modelled from the specification; each such definition carries a doc comment
saying so.
-/

namespace HttpStatus

/-- Modelled from the spec: status constant of the http-status package. -/
def OK : Nat := 200

/-- Modelled from the spec: status constant of the http-status package. -/
def UNAUTHORIZED : Nat := 401

/-- Modelled from the spec: status constant of the http-status package. -/
def FORBIDDEN : Nat := 403

end HttpStatus

/-- Modelled from the spec: grant-type constant from the constants module (not under src). -/
def PASSWORD_CREDENTIALS_GRANT : String := "password"

/-- Modelled from the spec: grant-type constant from the constants module (not under src). -/
def AUTHORIZATION_CODE_GRANT : String := "authorization_code"

/-- Modelled from the spec: realm constant from the constants module (not under src). -/
def EMPLOYEES_REALM : String := "/employees"

/-- Field name constant from the embedded source file. -/
def AUTHORIZATION_HEADER_FIELD_NAME : String := "authorization"

/-- Content type constant from the embedded source file. -/
def OAUTH_CONTENT_TYPE : String := "application/x-www-form-urlencoded"

/-- An outbound HTTP request as issued by fetch: method, url, body and headers. -/
structure HttpRequest where
  method : String
  url : String
  body : String
  headers : List (String × String)
deriving DecidableEq

/-- Outcome of one fetch call, with the body already parsed to a value of type D:
either the endpoint responded (status plus parsed JSON body), or the transport
failed (no response at all; a failing JSON parse lands here as well, since both
reach the same catch handler in the source). -/
inductive FetchOutcome (D : Type) where
  | response (status : Nat) (data : D)
  | transportError (err : String)
deriving DecidableEq

/-- A promise rejection value, mirroring the object shapes the source produces:
the thrown object with keys status and data, the catch wrapper with keys
msg and err, or a bare transport error. -/
inductive RejectValue (D : Type) where
  | statusData (status : Nat) (data : D)
  | wrapped (msg : String) (err : RejectValue D)
  | transportErr (err : String)
deriving DecidableEq

/-- JS property access value.status on a rejection value: the object literal
with keys status and data has it; the wrapper object with keys msg and err
does not (undefined), nor does a bare transport error. -/
def RejectValue.statusProp {D : Type} : RejectValue D → Option Nat
  | RejectValue.statusData s _ => some s
  | RejectValue.wrapped _ _ => none
  | RejectValue.transportErr _ => none

/-- How a promise settles: resolved with data, or rejected with a value. -/
inductive TokenResult (D : Type) where
  | resolved (data : D)
  | rejected (value : RejectValue D)
deriving DecidableEq

/-- The shared then/catch chain of requestAccessToken and getTokenInfo: on a
response, a non-200 status throws the object with keys status and data, which
the trailing catch wraps as the object with keys msg and err before rejecting;
a 200 status resolves with the parsed data; a transport failure is wrapped the
same way by the same catch. -/
def settleTokenRequest {D : Type} (msg : String) (o : FetchOutcome D) : TokenResult D :=
  match o with
  | FetchOutcome.response status data =>
      if status ≠ HttpStatus.OK then
        TokenResult.rejected (RejectValue.wrapped msg (RejectValue.statusData status data))
      else
        TokenResult.resolved data
  | FetchOutcome.transportError e =>
      TokenResult.rejected (RejectValue.wrapped msg (RejectValue.transportErr e))

/-- Modelled from the external form-urlencoded library: serializes the ordered
key/value pairs as k1=v1&k2=v2 (URI escaping elided; values are used verbatim). -/
def formurlencoded (pairs : List (String × String)) : String :=
  String.intercalate "&" (pairs.map (fun p => p.1 ++ "=" ++ p.2))

/-- The base64 alphabet, as a list of characters. -/
def base64Chars : List Char :=
  "ABCDEFGHIJKLMNOPQRSTUVWXYZabcdefghijklmnopqrstuvwxyz0123456789+/".toList

/-- Character of the base64 alphabet at a six-bit index. -/
def b64c (n : Nat) : Char := base64Chars.getD n 'A'

/-- Standard base64 of a byte list, three bytes to four characters with padding. -/
def base64EncodeList : List Nat → List Char
  | [] => []
  | [a] => [b64c (a / 4), b64c (a % 4 * 16), '=', '=']
  | [a, b] => [b64c (a / 4), b64c (a % 4 * 16 + b / 16), b64c (b % 16 * 4), '=']
  | a :: b :: c :: rest =>
      b64c (a / 4) :: b64c (a % 4 * 16 + b / 16) :: b64c (b % 16 * 4 + c / 64) ::
        b64c (c % 64) :: base64EncodeList rest

/-- Modelled from the spec: the utils module (not under src) builds the value
Basic base64(clientId:clientSecret) for the Authorization header. -/
def getBasicAuthHeaderValue (clientId clientSecret : String) : String :=
  "Basic " ++ String.mk (base64EncodeList ((clientId ++ ":" ++ clientSecret).toUTF8.toList.map (fun b => b.toNat)))

/-- Returns the URI to request an authorization code with the given parameters. -/
def createAuthCodeRequestUri (authorizationEndpoint clientId redirectUri : String) : String :=
  authorizationEndpoint ++
    "?client_id=" ++ clientId ++
    "&redirect_uri=" ++ redirectUri ++
    "&response_type=code" ++
    "&realm=" ++ EMPLOYEES_REALM

/-- The POST request requestAccessToken issues: endpoint with the realm query
parameter, the form-url-encoded body, and the Authorization and Content-Type
headers. -/
def tokenRequest (bodyObject : List (String × String))
    (authorizationHeaderValue accessTokenEndpoint realm : String) : HttpRequest :=
  { method := "POST"
    url := accessTokenEndpoint ++ "?realm=" ++ realm
    body := formurlencoded bodyObject
    headers := [("Authorization", authorizationHeaderValue),
                ("Content-Type", OAUTH_CONTENT_TYPE)] }

/-- requestAccessToken: issues one POST to the access token endpoint and settles
through the then/catch chain. The returned pair carries the issued request and
the settlement of the promise. -/
def requestAccessToken {D : Type} (bodyObject : List (String × String))
    (authorizationHeaderValue accessTokenEndpoint realm : String)
    (env : HttpRequest → FetchOutcome D) : HttpRequest × TokenResult D :=
  let req := tokenRequest bodyObject authorizationHeaderValue accessTokenEndpoint realm
  (req, settleTokenRequest ("Error requesting access token from " ++ accessTokenEndpoint) (env req))

/-- The GET request getTokenInfo issues: the introspection url with the access
token as a query parameter, no body and no extra headers. -/
def tokenInfoRequest (tokenInfoUrl accessToken : String) : HttpRequest :=
  { method := "GET"
    url := tokenInfoUrl ++ "?access_token=" ++ accessToken
    body := ""
    headers := [] }

/-- getTokenInfo: issues one GET to the introspection endpoint and settles
through the same then/catch chain as requestAccessToken. -/
def getTokenInfo {D : Type} (tokenInfoUrl accessToken : String)
    (env : HttpRequest → FetchOutcome D) : TokenResult D :=
  settleTokenRequest ("Error requesting tokeninfo from " ++ tokenInfoUrl)
    (env (tokenInfoRequest tokenInfoUrl accessToken))

/-- The options bag of getAccessToken. Every field is carried so that the
presence checks of the configuration validator are satisfied by construction. -/
structure Options where
  credentialsDir : String
  grantType : String
  accessTokenEndpoint : String
  realm : String
  scopes : List String
  code : String
  redirectUri : String
deriving DecidableEq

/-- Parsed content of user.json, the user credential document. -/
structure UserData where
  application_username : String
  application_password : String
deriving DecidableEq

/-- Parsed content of client.json, the client credential document. -/
structure ClientData where
  client_id : String
  client_secret : String
deriving DecidableEq

/-- Modelled from the spec: validateOAuthConfig (utils module, not under src)
checks that the grant-type-mandatory options are present; the Options structure
of this embedding carries every field, so the check always succeeds. -/
def validateOAuthConfig (_options : Options) : Bool := true

/-- How a getAccessToken call ends: a thrown TypeError (before any token request
is issued), or the settlement of the issued token request. -/
inductive GetTokenOutcome (D : Type) where
  | typeError (msg : String)
  | settled (r : TokenResult D)
deriving DecidableEq

/-- getAccessToken: validates the configuration, builds the grant-specific body
from the loaded credentials (credential loading and JSON parsing are the
credential-loader collaborator outside src; its successfully parsed results are
the userData and clientData arguments), and performs the token exchange. The
first component lists the token-endpoint requests issued during the call. -/
def getAccessToken {D : Type} (options : Options) (userData : UserData)
    (clientData : ClientData) (env : HttpRequest → FetchOutcome D) :
    List HttpRequest × GetTokenOutcome D :=
  let _configOk := validateOAuthConfig options
  if options.grantType = PASSWORD_CREDENTIALS_GRANT then
    let bodyParameters := [("grant_type", options.grantType),
                           ("username", userData.application_username),
                           ("password", userData.application_password),
                           ("scope", String.intercalate " " options.scopes)]
    let authorizationHeaderValue :=
      getBasicAuthHeaderValue clientData.client_id clientData.client_secret
    let r := requestAccessToken bodyParameters authorizationHeaderValue
      options.accessTokenEndpoint options.realm env
    ([r.1], GetTokenOutcome.settled r.2)
  else if options.grantType = AUTHORIZATION_CODE_GRANT then
    let bodyParameters := [("grant_type", options.grantType),
                           ("code", options.code),
                           ("redirect_uri", options.redirectUri)]
    let authorizationHeaderValue :=
      getBasicAuthHeaderValue clientData.client_id clientData.client_secret
    let r := requestAccessToken bodyParameters authorizationHeaderValue
      options.accessTokenEndpoint options.realm env
    ([r.1], GetTokenOutcome.settled r.2)
  else
    ([], GetTokenOutcome.typeError "invalid grantType")

/-- An inbound request as the middlewares see it: the original url, the header
list, and the scopes attached to the request object (absent before the token
info validator ran). -/
structure Req where
  originalUrl : String
  headers : List (String × String)
  scopes : Option (List String)
deriving DecidableEq

/-- What a middleware does with the response: continue the pipeline or reject
with an HTTP status. -/
inductive MiddlewareOutcome where
  | next
  | reject (status : Nat)
deriving DecidableEq

/-- Modelled from the spec: rejectRequest (utils module, not under src) ends the
response with the given status, with 401 Unauthorized as the default when no
status is supplied. -/
def rejectRequest (status : Option Nat) : MiddlewareOutcome :=
  MiddlewareOutcome.reject (status.getD HttpStatus.UNAUTHORIZED)

/-- requireScopesMiddleware: builds the set of scopes granted to the request
(the Set constructor of the source deduplicates, modelled by dedup), copies the
required scopes into a fresh set, deletes every granted scope from the copy and
continues only when the copy is empty, rejecting with 403 Forbidden otherwise.
The request is returned alongside the outcome: the source never assigns to the
request object, so the state passes through unchanged. -/
def requireScopesMiddleware (scopes : List String) (req : Req) : MiddlewareOutcome × Req :=
  let userScopes : List String := (req.scopes.getD []).dedup
  let scopesCopy : Finset String := scopes.toFinset
  let remaining : Finset String := userScopes.foldl (fun acc u => acc.erase u) scopesCopy
  (if remaining.card = 0 then MiddlewareOutcome.next
   else rejectRequest (some HttpStatus.FORBIDDEN),
   req)

/-- Parsed body of a successful introspection response; the scope field lists
the scopes granted to the token. -/
structure TokenInfo where
  scope : List String
deriving DecidableEq

/-- Modelled from the spec: getHeaderValue (utils module, not under src) reads a
header value of the request by field name. -/
def getHeaderValue (req : Req) (fieldName : String) : Option String :=
  (req.headers.find? (fun p => p.1 = fieldName)).map (fun p => p.2)

/-- Tests whether the first character list is a leading part of the second. -/
def leadsList : List Char → List Char → Bool
  | [], _ => true
  | _ :: _, [] => false
  | a :: as, b :: bs => a == b && leadsList as bs

/-- Tests whether the pattern string is a leading part of the other string. -/
def leadsString (pattern s : String) : Bool :=
  leadsList pattern.toList s.toList

/-- Modelled from the spec: extractAccessToken (utils module, not under src)
extracts the bearer token from an authorization header value; an absent or
malformed header (not of the form Bearer token) yields none. -/
def extractAccessToken : Option String → Option String
  | none => none
  | some v =>
      if leadsString "Bearer " v then
        let token := String.mk (v.toList.drop 7)
        if token = "" then none else some token
      else none

/-- Modelled from the spec: match (utils module, not under src) tests the url
against the list of public path patterns; embedded as: some pattern is a
leading part of the url. -/
def matchUrl (url : String) (patterns : List String) : Bool :=
  patterns.any (fun pattern => leadsString pattern url)

/-- Modelled from the spec: setScopes (utils module, not under src) attaches the
scopes of the introspection result to the request object. -/
def setScopes (req : Req) (data : TokenInfo) : Req :=
  { req with scopes := some data.scope }

/-- Options of handleOAuthRequestMiddleware: the introspection endpoint (the
empty string models an absent, falsy value) and the optional public patterns. -/
structure MwOptions where
  tokenInfoEndpoint : String
  publicEndpoints : Option (List String)
deriving DecidableEq

/-- The guard skipping OAuth validation: publicEndpoints is set and the url
matches one of its patterns (the source uses a truthiness-guarded conjunction). -/
def isPublicRequest (options : MwOptions) (req : Req) : Bool :=
  match options.publicEndpoints with
  | some patterns => matchUrl req.originalUrl patterns
  | none => false

/-- What one run of the inbound middleware did: the pipeline outcome, the
introspection requests issued during the run, and the request state afterwards. -/
structure MwRun where
  outcome : MiddlewareOutcome
  introspectionCalls : List HttpRequest
  reqAfter : Req
deriving DecidableEq

/-- The per-request body of the middleware returned by
handleOAuthRequestMiddleware: skip validation on public paths; reject with the
default status when no bearer token can be extracted (no introspection call);
otherwise introspect the token, attach the returned scopes and continue on
success, and on failure reject with the status property of the rejection value
(the default when it is undefined). -/
def oauthRequestHandler (options : MwOptions) (env : HttpRequest → FetchOutcome TokenInfo)
    (req : Req) : MwRun :=
  if isPublicRequest options req then
    { outcome := MiddlewareOutcome.next, introspectionCalls := [], reqAfter := req }
  else
    match extractAccessToken (getHeaderValue req AUTHORIZATION_HEADER_FIELD_NAME) with
    | none =>
        { outcome := rejectRequest none, introspectionCalls := [], reqAfter := req }
    | some accessToken =>
        match getTokenInfo options.tokenInfoEndpoint accessToken env with
        | TokenResult.resolved data =>
            { outcome := MiddlewareOutcome.next
              introspectionCalls := [tokenInfoRequest options.tokenInfoEndpoint accessToken]
              reqAfter := setScopes req data }
        | TokenResult.rejected value =>
            { outcome := rejectRequest value.statusProp
              introspectionCalls := [tokenInfoRequest options.tokenInfoEndpoint accessToken]
              reqAfter := req }

/-- handleOAuthRequestMiddleware: constructing the middleware fails at setup
time with a TypeError when tokenInfoEndpoint is falsy; otherwise it returns the
per-request handler. -/
def handleOAuthRequestMiddleware (options : MwOptions) :
    Except String ((HttpRequest → FetchOutcome TokenInfo) → Req → MwRun) :=
  if options.tokenInfoEndpoint = "" then
    Except.error "tokenInfoEndpoint must be defined"
  else
    Except.ok (oauthRequestHandler options)

/-- C10: createAuthCodeRequestUri is the deterministic concatenation of its
arguments with response_type code, and the realm query parameter is always the
employees realm constant, regardless of the inputs. -/
theorem auth_code_request_uri_shape (authorizationEndpoint clientId redirectUri : String) :
    createAuthCodeRequestUri authorizationEndpoint clientId redirectUri =
      authorizationEndpoint ++ "?client_id=" ++ clientId ++ "&redirect_uri=" ++ redirectUri ++
        "&response_type=code" ++ "&realm=" ++ EMPLOYEES_REALM := rfl

/-- C2: when the grantType of the options is neither the password-credentials
nor the authorization-code constant, getAccessToken ends with the thrown
TypeError and the list of issued token-endpoint requests is empty: no outbound
token request is attempted. -/
theorem invalid_grant_type_no_request {D : Type} (options : Options) (userData : UserData)
    (clientData : ClientData) (env : HttpRequest → FetchOutcome D)
    (h1 : options.grantType ≠ PASSWORD_CREDENTIALS_GRANT)
    (h2 : options.grantType ≠ AUTHORIZATION_CODE_GRANT) :
    getAccessToken options userData clientData env =
      ([], GetTokenOutcome.typeError "invalid grantType") := by
  simp [getAccessToken, h1, h2]

/-- Witness for C2 at a concrete unrecognized grant type. -/
theorem invalid_grant_type_no_request_witness :
    getAccessToken
      { credentialsDir := "d", grantType := "implicit", accessTokenEndpoint := "e",
        realm := "r", scopes := [], code := "", redirectUri := "" }
      { application_username := "u", application_password := "p" }
      { client_id := "c", client_secret := "s" }
      (fun _ => FetchOutcome.response 200 (0 : Nat)) =
      ([], GetTokenOutcome.typeError "invalid grantType") :=
  invalid_grant_type_no_request _ _ _ _ (by decide) (by decide)

/-- C4: when the endpoint responds with status 200 exactly, requestAccessToken
resolves with the parsed body, and so does getTokenInfo. -/
theorem success_resolves_parsed_body {D : Type} (bodyObject : List (String × String))
    (authorizationHeaderValue accessTokenEndpoint realm tokenInfoUrl accessToken : String)
    (env env2 : HttpRequest → FetchOutcome D) (d d2 : D)
    (h : env (tokenRequest bodyObject authorizationHeaderValue accessTokenEndpoint realm) =
      FetchOutcome.response 200 d)
    (h2 : env2 (tokenInfoRequest tokenInfoUrl accessToken) = FetchOutcome.response 200 d2) :
    (requestAccessToken bodyObject authorizationHeaderValue accessTokenEndpoint realm env).2 =
      TokenResult.resolved d ∧
    getTokenInfo tokenInfoUrl accessToken env2 = TokenResult.resolved d2 := by
  constructor <;>
    simp [requestAccessToken, getTokenInfo, settleTokenRequest, h, h2, HttpStatus.OK]

/-- Witness for C4 at concrete 200 responses. -/
theorem success_resolves_parsed_body_witness :
    (requestAccessToken [] "a" "e" "r" (fun _ => FetchOutcome.response 200 (7 : Nat))).2 =
      TokenResult.resolved 7 ∧
    getTokenInfo "u" "t" (fun _ => FetchOutcome.response 200 (7 : Nat)) =
      TokenResult.resolved 7 :=
  success_resolves_parsed_body [] "a" "e" "r" "u" "t" _ _ 7 7 rfl rfl

/-- C1 counterexample: at a concrete 401 response with parsed body 0, the
promise of getTokenInfo rejects, but the rejection value is the catch wrapper
object with keys msg and err, not the bare object with keys status and data;
requestAccessToken wraps the same way. -/
theorem upstream_rejection_not_verbatim_cex :
    getTokenInfo "u" "t" (fun _ => FetchOutcome.response 401 (0 : Nat)) =
      TokenResult.rejected (RejectValue.wrapped "Error requesting tokeninfo from u"
        (RejectValue.statusData 401 0)) ∧
    getTokenInfo "u" "t" (fun _ => FetchOutcome.response 401 (0 : Nat)) ≠
      TokenResult.rejected (RejectValue.statusData 401 0) ∧
    (requestAccessToken [] "a" "e" "r" (fun _ => FetchOutcome.response 401 (0 : Nat))).2 ≠
      TokenResult.rejected (RejectValue.statusData 401 0) := by
  refine ⟨rfl, ?_, ?_⟩ <;> decide

/-- C1 amended: on any HTTP status other than 200, the promise rejects, and the
rejection value is the object with keys msg and err, where msg identifies the
endpoint and err is exactly the object with keys status and data carrying the
status of the response and the parsed error body. -/
theorem upstream_error_rejects_wrapped {D : Type} (bodyObject : List (String × String))
    (authorizationHeaderValue accessTokenEndpoint realm tokenInfoUrl accessToken : String)
    (env env2 : HttpRequest → FetchOutcome D) (s s2 : Nat) (d d2 : D)
    (hs : s ≠ 200) (hs2 : s2 ≠ 200)
    (h : env (tokenRequest bodyObject authorizationHeaderValue accessTokenEndpoint realm) =
      FetchOutcome.response s d)
    (h2 : env2 (tokenInfoRequest tokenInfoUrl accessToken) = FetchOutcome.response s2 d2) :
    (requestAccessToken bodyObject authorizationHeaderValue accessTokenEndpoint realm env).2 =
      TokenResult.rejected (RejectValue.wrapped
        ("Error requesting access token from " ++ accessTokenEndpoint)
        (RejectValue.statusData s d)) ∧
    getTokenInfo tokenInfoUrl accessToken env2 =
      TokenResult.rejected (RejectValue.wrapped
        ("Error requesting tokeninfo from " ++ tokenInfoUrl)
        (RejectValue.statusData s2 d2)) := by
  constructor <;>
    simp [requestAccessToken, getTokenInfo, settleTokenRequest, h, h2, HttpStatus.OK, hs, hs2]

/-- Witness for the amended C1 at concrete non-200 responses. -/
theorem upstream_error_rejects_wrapped_witness :
    (requestAccessToken [] "a" "e" "r" (fun _ => FetchOutcome.response 503 (9 : Nat))).2 =
      TokenResult.rejected (RejectValue.wrapped "Error requesting access token from e"
        (RejectValue.statusData 503 9)) ∧
    getTokenInfo "u" "t" (fun _ => FetchOutcome.response 400 (3 : Nat)) =
      TokenResult.rejected (RejectValue.wrapped "Error requesting tokeninfo from u"
        (RejectValue.statusData 400 3)) :=
  upstream_error_rejects_wrapped [] "a" "e" "r" "u" "t" _ _ 503 400 9 3
    (by decide) (by decide) rfl rfl

/-- C5: for a recognized grantType, getAccessToken issues exactly one POST to
the access token endpoint with the realm query parameter, the grant-specific
form-url-encoded body, the Basic Authorization header built from the loaded
client credentials, and the form content type. -/
theorem token_request_shape {D : Type} (options : Options) (userData : UserData)
    (clientData : ClientData) (env : HttpRequest → FetchOutcome D) :
    (options.grantType = PASSWORD_CREDENTIALS_GRANT →
      (getAccessToken options userData clientData env).1 =
        [{ method := "POST"
           url := options.accessTokenEndpoint ++ "?realm=" ++ options.realm
           body := formurlencoded [("grant_type", options.grantType),
                                   ("username", userData.application_username),
                                   ("password", userData.application_password),
                                   ("scope", String.intercalate " " options.scopes)]
           headers := [("Authorization",
                        getBasicAuthHeaderValue clientData.client_id clientData.client_secret),
                       ("Content-Type", "application/x-www-form-urlencoded")] }]) ∧
    (options.grantType = AUTHORIZATION_CODE_GRANT →
      (getAccessToken options userData clientData env).1 =
        [{ method := "POST"
           url := options.accessTokenEndpoint ++ "?realm=" ++ options.realm
           body := formurlencoded [("grant_type", options.grantType),
                                   ("code", options.code),
                                   ("redirect_uri", options.redirectUri)]
           headers := [("Authorization",
                        getBasicAuthHeaderValue clientData.client_id clientData.client_secret),
                       ("Content-Type", "application/x-www-form-urlencoded")] }]) := by
  constructor <;> intro h <;>
    simp [getAccessToken, h, requestAccessToken, tokenRequest, OAUTH_CONTENT_TYPE,
      PASSWORD_CREDENTIALS_GRANT, AUTHORIZATION_CODE_GRANT]

/-- Witness for C5, one concrete options value per recognized grant type. -/
theorem token_request_shape_witness :
    (getAccessToken
      { credentialsDir := "d", grantType := "password", accessTokenEndpoint := "e",
        realm := "r", scopes := ["s1", "s2"], code := "", redirectUri := "" }
      { application_username := "u", application_password := "p" }
      { client_id := "c", client_secret := "k" }
      (fun _ => FetchOutcome.response 200 (0 : Nat))).1 =
      [{ method := "POST"
         url := "e?realm=r"
         body := formurlencoded [("grant_type", "password"), ("username", "u"),
                                 ("password", "p"), ("scope", "s1 s2")]
         headers := [("Authorization", getBasicAuthHeaderValue "c" "k"),
                     ("Content-Type", "application/x-www-form-urlencoded")] }] ∧
    (getAccessToken
      { credentialsDir := "d", grantType := "authorization_code", accessTokenEndpoint := "e",
        realm := "r", scopes := [], code := "z", redirectUri := "w" }
      { application_username := "u", application_password := "p" }
      { client_id := "c", client_secret := "k" }
      (fun _ => FetchOutcome.response 200 (0 : Nat))).1 =
      [{ method := "POST"
         url := "e?realm=r"
         body := formurlencoded [("grant_type", "authorization_code"), ("code", "z"),
                                 ("redirect_uri", "w")]
         headers := [("Authorization", getBasicAuthHeaderValue "c" "k"),
                     ("Content-Type", "application/x-www-form-urlencoded")] }] :=
  ⟨(token_request_shape _ _ _ _).1 rfl, (token_request_shape _ _ _ _).2 rfl⟩

/-- Deleting every element of a list from a finite set is set difference with
the set of list elements. -/
theorem foldl_erase_eq_sdiff (l : List String) (acc : Finset String) :
    l.foldl (fun a u => a.erase u) acc = acc \ l.toFinset := by
  induction l generalizing acc with
  | nil => simp
  | cons u us ih =>
      simp only [List.foldl_cons, ih]
      ext x
      simp only [Finset.mem_sdiff, Finset.mem_erase, List.mem_toFinset, List.toFinset_cons,
        Finset.mem_insert, List.mem_cons]
      tauto

/-- C3: the scope-enforcement middleware continues the pipeline exactly when
every required scope is among the scopes attached to the request (an absent
scopes field counts as the empty set), and rejects with 403 Forbidden
otherwise. -/
theorem require_scopes_outcome (scopes : List String) (req : Req) :
    (requireScopesMiddleware scopes req).1 =
      if ∀ s ∈ scopes, s ∈ req.scopes.getD [] then MiddlewareOutcome.next
      else MiddlewareOutcome.reject 403 := by
  have hset : ((req.scopes.getD []).dedup).foldl (fun a u => a.erase u) scopes.toFinset =
      scopes.toFinset \ (req.scopes.getD []).toFinset := by
    rw [foldl_erase_eq_sdiff]
    congr 1
    ext x
    simp [List.mem_dedup]
  by_cases h : ∀ s ∈ scopes, s ∈ req.scopes.getD []
  · have hempty : scopes.toFinset \ (req.scopes.getD []).toFinset = ∅ := by
      rw [Finset.sdiff_eq_empty_iff_subset]
      intro x hx
      simp only [List.mem_toFinset] at hx ⊢
      exact h x hx
    rw [if_pos h]
    simp [requireScopesMiddleware, hset, hempty]
  · have hne : scopes.toFinset \ (req.scopes.getD []).toFinset ≠ ∅ := by
      push_neg at h
      obtain ⟨s, hs, hns⟩ := h
      intro hcontra
      have hmem : s ∈ scopes.toFinset \ (req.scopes.getD []).toFinset := by
        simp [List.mem_toFinset, hs, hns]
      rw [hcontra] at hmem
      exact absurd hmem (Finset.not_mem_empty s)
    rw [if_neg h]
    simp [requireScopesMiddleware, hset, Finset.card_eq_zero, hne, rejectRequest,
      HttpStatus.FORBIDDEN]

/-- C9: the scope-enforcement middleware leaves the request state, and in
particular the scopes attached to the request, unchanged: the deletions run on
a copy of the required list and the request passes through untouched. -/
theorem require_scopes_preserves_request (scopes : List String) (req : Req) :
    (requireScopesMiddleware scopes req).2 = req := rfl

/-- A middleware successfully returned by handleOAuthRequestMiddleware is its
per-request handler. -/
theorem middleware_of_ok (options : MwOptions)
    (mw : (HttpRequest → FetchOutcome TokenInfo) → Req → MwRun)
    (hmw : handleOAuthRequestMiddleware options = Except.ok mw) :
    mw = oauthRequestHandler options := by
  by_cases h : options.tokenInfoEndpoint = ""
  · simp [handleOAuthRequestMiddleware, h] at hmw
  · simp [handleOAuthRequestMiddleware, h] at hmw
    exact hmw.symm

/-- C7: when the request url matches a pattern of the configured public
endpoints, the middleware continues the pipeline unconditionally: no
introspection call is issued and the request state is untouched, whatever the
headers are (in particular with no authorization header present). -/
theorem public_endpoint_bypass (options : MwOptions)
    (env : HttpRequest → FetchOutcome TokenInfo) (req : Req)
    (mw : (HttpRequest → FetchOutcome TokenInfo) → Req → MwRun)
    (hmw : handleOAuthRequestMiddleware options = Except.ok mw)
    (patterns : List String) (hpat : options.publicEndpoints = some patterns)
    (hmatch : matchUrl req.originalUrl patterns = true) :
    mw env req =
      { outcome := MiddlewareOutcome.next, introspectionCalls := [], reqAfter := req } := by
  rw [middleware_of_ok options mw hmw]
  simp [oauthRequestHandler, isPublicRequest, hpat, hmatch]

/-- Witness for C7: a public path with no authorization header bypasses
validation. -/
theorem public_endpoint_bypass_witness :
    oauthRequestHandler { tokenInfoEndpoint := "ti", publicEndpoints := some ["/pub"] }
      (fun _ => FetchOutcome.response 200 { scope := [] })
      { originalUrl := "/public", headers := [], scopes := none } =
      { outcome := MiddlewareOutcome.next, introspectionCalls := [],
        reqAfter := { originalUrl := "/public", headers := [], scopes := none } } :=
  public_endpoint_bypass { tokenInfoEndpoint := "ti", publicEndpoints := some ["/pub"] }
    (fun _ => FetchOutcome.response 200 { scope := [] })
    { originalUrl := "/public", headers := [], scopes := none }
    (oauthRequestHandler { tokenInfoEndpoint := "ti", publicEndpoints := some ["/pub"] })
    rfl ["/pub"] rfl (by decide)

/-- C8: on a non-public request from which no bearer token can be extracted,
the middleware rejects with the default 401 Unauthorized and issues zero
introspection calls. -/
theorem missing_token_rejects_401 (options : MwOptions)
    (env : HttpRequest → FetchOutcome TokenInfo) (req : Req)
    (mw : (HttpRequest → FetchOutcome TokenInfo) → Req → MwRun)
    (hmw : handleOAuthRequestMiddleware options = Except.ok mw)
    (hpub : isPublicRequest options req = false)
    (htok : extractAccessToken (getHeaderValue req AUTHORIZATION_HEADER_FIELD_NAME) = none) :
    mw env req =
      { outcome := MiddlewareOutcome.reject 401, introspectionCalls := [], reqAfter := req } := by
  rw [middleware_of_ok options mw hmw]
  simp [oauthRequestHandler, hpub, htok, rejectRequest, HttpStatus.UNAUTHORIZED]

/-- Witness for C8: no authorization header at all on a non-public request. -/
theorem missing_token_rejects_401_witness :
    oauthRequestHandler { tokenInfoEndpoint := "ti", publicEndpoints := none }
      (fun _ => FetchOutcome.response 200 { scope := [] })
      { originalUrl := "/x", headers := [], scopes := none } =
      { outcome := MiddlewareOutcome.reject 401, introspectionCalls := [],
        reqAfter := { originalUrl := "/x", headers := [], scopes := none } } :=
  missing_token_rejects_401 { tokenInfoEndpoint := "ti", publicEndpoints := none }
    (fun _ => FetchOutcome.response 200 { scope := [] })
    { originalUrl := "/x", headers := [], scopes := none }
    (oauthRequestHandler { tokenInfoEndpoint := "ti", publicEndpoints := none })
    rfl rfl rfl

/-- C6: when a bearer token was extracted and the introspection call fails, the
middleware rejects the request with the status property of the rejection value
when it carries one, and with the default 401 Unauthorized otherwise. -/
theorem introspection_failure_status (options : MwOptions)
    (env : HttpRequest → FetchOutcome TokenInfo) (req : Req)
    (mw : (HttpRequest → FetchOutcome TokenInfo) → Req → MwRun)
    (accessToken : String) (value : RejectValue TokenInfo)
    (hmw : handleOAuthRequestMiddleware options = Except.ok mw)
    (hpub : isPublicRequest options req = false)
    (htok : extractAccessToken (getHeaderValue req AUTHORIZATION_HEADER_FIELD_NAME) =
      some accessToken)
    (hfail : getTokenInfo options.tokenInfoEndpoint accessToken env =
      TokenResult.rejected value) :
    (mw env req).outcome =
      MiddlewareOutcome.reject (value.statusProp.getD HttpStatus.UNAUTHORIZED) := by
  rw [middleware_of_ok options mw hmw]
  simp [oauthRequestHandler, hpub, htok, hfail, rejectRequest]

/-- Witness for C6: the introspection endpoint answers 401; the rejection value
is the wrapper object, which carries no status property, so the middleware
rejects with the default 401. -/
theorem introspection_failure_status_witness :
    (oauthRequestHandler { tokenInfoEndpoint := "ti", publicEndpoints := none }
      (fun _ => FetchOutcome.response 401 { scope := [] })
      { originalUrl := "/x", headers := [("authorization", "Bearer t")], scopes := none }).outcome =
      MiddlewareOutcome.reject 401 :=
  introspection_failure_status { tokenInfoEndpoint := "ti", publicEndpoints := none }
    (fun _ => FetchOutcome.response 401 { scope := [] })
    { originalUrl := "/x", headers := [("authorization", "Bearer t")], scopes := none }
    (oauthRequestHandler { tokenInfoEndpoint := "ti", publicEndpoints := none })
    "t"
    (RejectValue.wrapped "Error requesting tokeninfo from ti"
      (RejectValue.statusData 401 { scope := [] }))
    rfl rfl (by decide) rfl
